import Mathlib

/-!
# Verification development for the Proxy-Agent-Network Node SDK webhook authentication core

This file gives a shallow embedding, in Lean 4, of the webhook signature
verification logic of the SDK:

* `WebhookAuth.verifySignature`  — `src/webhook_auth.ts`, `verifySignature`
* `SecurityTs.verifyProxySignature` — `src/security.ts`, `verifyProxySignature`
* `IndexTs.verifyProxySignature` — `src/index.ts`, `verifyProxySignature`

Bytes are modelled as `List Nat` (each element `< 256` by construction), machine
32-bit words as `Nat` reduced modulo `2^32` where overflow matters.  JavaScript
functions that can throw are embedded in `Except String`; an uncaught
`throw new Error(msg)` becomes `.error msg`, and an ordinary `return b` becomes
`.ok b`.  Wall-clock time (`Math.floor(Date.now() / 1000)`) is passed as an
explicit `now : Int` parameter.  HMAC-SHA256 is implemented concretely
(FIPS 180-4 / RFC 2104) so that every claim can be evaluated on concrete inputs;
the implementation is validated against published test vectors below.
-/

namespace ProxySDK

/-- Reduce a `Nat` to an unsigned 32-bit word, `n mod 2^32`. -/
def w32 (n : Nat) : Nat := n % 4294967296

/-- 32-bit right rotation (operand assumed `< 2^32`). -/
def rotr32 (x n : Nat) : Nat := w32 ((x >>> n) ||| (x <<< (32 - n)))

/-- UTF-8 encoding of a single character (RFC 3629), as a list of bytes. -/
def utf8EncodeChar (c : Char) : List Nat :=
  let n := c.toNat
  if n < 128 then [n]
  else if n < 2048 then
    [192 ||| (n >>> 6), 128 ||| (n &&& 63)]
  else if n < 65536 then
    [224 ||| (n >>> 12), 128 ||| ((n >>> 6) &&& 63), 128 ||| (n &&& 63)]
  else
    [240 ||| (n >>> 18), 128 ||| ((n >>> 12) &&& 63), 128 ||| ((n >>> 6) &&& 63),
     128 ||| (n &&& 63)]

/-- UTF-8 encoding of a string: the bytes `Buffer.from(s, 'utf-8')` holds. -/
def utf8Bytes (s : String) : List Nat :=
  (s.data.map utf8EncodeChar).flatten

/-- SHA-256 round constants `K` (FIPS 180-4 §4.2.2). -/
def K256 : List Nat :=
  [1116352408, 1899447441, 3049323471, 3921009573, 961987163, 1508970993,
   2453635748, 2870763221, 3624381080, 310598401, 607225278, 1426881987,
   1925078388, 2162078206, 2614888103, 3248222580, 3835390401, 4022224774,
   264347078, 604807628, 770255983, 1249150122, 1555081692, 1996064986,
   2554220882, 2821834349, 2952996808, 3210313671, 3336571891, 3584528711,
   113926993, 338241895, 666307205, 773529912, 1294757372, 1396182291,
   1695183700, 1986661051, 2177026350, 2456956037, 2730485921, 2820302411,
   3259730800, 3345764771, 3516065817, 3600352804, 4094571909, 275423344,
   430227734, 506948616, 659060556, 883997877, 958139571, 1322822218,
   1537002063, 1747873779, 1955562222, 2024104815, 2227730452, 2361852424,
   2428436474, 2756734187, 3204031479, 3329325298]

/-- SHA-256 initial hash value `H^(0)` (FIPS 180-4 §5.3.3). -/
def H256 : List Nat :=
  [1779033703, 3144134277, 1013904242, 2773480762, 1359893119, 2600822924,
   528734635, 1541459225]

/-- Group a byte list into 32-bit big-endian words (complete 4-byte groups). -/
def bytesToWords : List Nat → List Nat
  | b0 :: b1 :: b2 :: b3 :: rest =>
      ((b0 <<< 24) ||| (b1 <<< 16) ||| (b2 <<< 8) ||| b3) :: bytesToWords rest
  | _ => []

/-- Serialize 32-bit words as big-endian bytes. -/
def wordsToBytes (ws : List Nat) : List Nat :=
  (ws.map (fun w => [(w >>> 24) % 256, (w >>> 16) % 256, (w >>> 8) % 256, w % 256])).flatten

/-- Split a byte list into 64-byte blocks (fuel-indexed structural recursion;
`fuel` bounds the number of blocks produced). -/
def chunk64Go : Nat → List Nat → List (List Nat)
  | 0, _ => []
  | _, [] => []
  | fuel + 1, a :: rest => ((a :: rest).take 64) :: chunk64Go fuel ((a :: rest).drop 64)

/-- Split a byte list into 64-byte blocks. -/
def chunk64 (l : List Nat) : List (List Nat) := chunk64Go l.length l

/-- Extend a 16-word message schedule by `k` further words (FIPS 180-4 §6.2.2 step 1). -/
def extendSchedule (w : List Nat) : Nat → List Nat
  | 0 => w
  | k + 1 =>
      let i := w.length
      let x15 := w.getD (i - 15) 0
      let x2 := w.getD (i - 2) 0
      let s0 := (rotr32 x15 7) ^^^ (rotr32 x15 18) ^^^ (x15 >>> 3)
      let s1 := (rotr32 x2 17) ^^^ (rotr32 x2 19) ^^^ (x2 >>> 10)
      extendSchedule (w ++ [w32 (w.getD (i - 16) 0 + s0 + w.getD (i - 7) 0 + s1)]) k

/-- One SHA-256 round: update the 8-word working state with `(Wt, Kt)`. -/
def sha256Round (st : List Nat) (wk : Nat × Nat) : List Nat :=
  match st with
  | [a, b, c, d, e, f, g, h] =>
      let s1 := (rotr32 e 6) ^^^ (rotr32 e 11) ^^^ (rotr32 e 25)
      let ch := (e &&& f) ^^^ ((e ^^^ 0xffffffff) &&& g)
      let t1 := w32 (h + s1 + ch + wk.2 + wk.1)
      let s0 := (rotr32 a 2) ^^^ (rotr32 a 13) ^^^ (rotr32 a 22)
      let mj := (a &&& b) ^^^ (a &&& c) ^^^ (b &&& c)
      let t2 := w32 (s0 + mj)
      [w32 (t1 + t2), a, b, c, w32 (d + t1), e, f, g]
  | st => st

/-- SHA-256 compression of one 64-byte block into the running hash. -/
def sha256Block (h : List Nat) (block : List Nat) : List Nat :=
  let w := extendSchedule (bytesToWords block) 48
  let st := (w.zip K256).foldl sha256Round h
  (h.zip st).map (fun p => w32 (p.1 + p.2))

/-- SHA-256 padding: append `0x80`, zeros, and the 64-bit big-endian bit length. -/
def sha256Pad (msg : List Nat) : List Nat :=
  let l := msg.length
  let z := (119 - l % 64) % 64
  let bits := 8 * l
  msg ++ [0x80] ++ List.replicate z 0 ++
    [(bits >>> 56) % 256, (bits >>> 48) % 256, (bits >>> 40) % 256, (bits >>> 32) % 256,
     (bits >>> 24) % 256, (bits >>> 16) % 256, (bits >>> 8) % 256, bits % 256]

/-- The SHA-256 digest (32 bytes) of a byte-list message. -/
def sha256 (msg : List Nat) : List Nat :=
  wordsToBytes ((chunk64 (sha256Pad msg)).foldl sha256Block H256)

/-- HMAC-SHA256 (RFC 2104) with byte-list key and message; 32-byte digest. -/
def hmacSha256 (key msg : List Nat) : List Nat :=
  let k0 := if 64 < key.length then sha256 key else key
  let kp := k0 ++ List.replicate (64 - k0.length) 0
  let ip := kp.map (fun b => b ^^^ 0x36)
  let op := kp.map (fun b => b ^^^ 0x5c)
  sha256 (op ++ sha256 (ip ++ msg))

/-- Lowercase hex digit for a nibble, as Node's `digest('hex')` produces. -/
def hexDigitChar (n : Nat) : Char :=
  if n < 10 then Char.ofNat (48 + n) else Char.ofNat (87 + n)

/-- Lowercase hexadecimal encoding of a byte list, Node's `digest('hex')`. -/
def hexEncode (bs : List Nat) : String :=
  String.mk ((bs.map (fun b => [hexDigitChar (b >>> 4), hexDigitChar (b % 16)])).flatten)

/-- Value of one hex digit character (either case), `none` for a non-hex character. -/
def hexDigitVal (c : Char) : Option Nat :=
  let n := c.toNat
  if 48 ≤ n ∧ n ≤ 57 then some (n - 48)
  else if 97 ≤ n ∧ n ≤ 102 then some (n - 87)
  else if 65 ≤ n ∧ n ≤ 70 then some (n - 55)
  else none

/-- Hex decoding over a character list, with Node `Buffer.from(s, 'hex')` semantics:
decode complete pairs, stop at the first pair containing an invalid character,
drop a lone trailing character. -/
def hexDecodeChars : List Char → List Nat
  | c1 :: c2 :: rest =>
      match hexDigitVal c1, hexDigitVal c2 with
      | some hi, some lo => (16 * hi + lo) :: hexDecodeChars rest
      | _, _ => []
  | _ => []

/-- Node's `Buffer.from(s, 'hex')` as a byte list. -/
def hexDecode (s : String) : List Nat := hexDecodeChars s.data

/-- JavaScript `WhiteSpace`/`LineTerminator` characters skipped by `parseInt`. -/
def isJsSpace (c : Char) : Bool :=
  c.toNat = 32 ∨ c.toNat = 9 ∨ c.toNat = 10 ∨ c.toNat = 13 ∨ c.toNat = 11 ∨
  c.toNat = 12 ∨ c.toNat = 160 ∨ c.toNat = 65279 ∨ c.toNat = 8232 ∨ c.toNat = 8233

/-- Value of a maximal leading run of decimal digits; `none` when there is no digit. -/
def leadingDigitsVal (cs : List Char) : Option Nat :=
  match cs.takeWhile (fun c => c.isDigit) with
  | [] => none
  | ds => some (ds.foldl (fun acc c => 10 * acc + (c.toNat - 48)) 0)

/-- JavaScript `parseInt(s, 10)`: skip whitespace, read an optional sign, then a
maximal run of decimal digits, ignoring any trailing characters; `NaN` (here
`none`) when no digit is found. -/
def parseIntJS (s : String) : Option Int :=
  match s.data.dropWhile (fun c => isJsSpace c) with
  | '-' :: rest => (leadingDigitsVal rest).map (fun n => -(n : Int))
  | '+' :: rest => (leadingDigitsVal rest).map (fun n => (n : Int))
  | rest => (leadingDigitsVal rest).map (fun n => (n : Int))

/-- Node's `crypto.timingSafeEqual(a, b)`: throws `ERR_CRYPTO_TIMING_SAFE_EQUAL_LENGTH`
when the buffers have different lengths, else returns whether they are byte-equal. -/
def timingSafeEqual (a b : List Nat) : Except String Bool :=
  if a.length = b.length then .ok (a == b)
  else .error "ERR_CRYPTO_TIMING_SAFE_EQUAL_LENGTH"

/-- `rawBody: string | Buffer` of `verifySignature`: a string is UTF-8 encoded,
a `Buffer` is used as-is (`typeof rawBody === 'string' ? Buffer.from(rawBody, 'utf-8') : rawBody`). -/
def bodyBuffer : Sum String (List Nat) → List Nat
  | .inl s => utf8Bytes s
  | .inr b => b

end ProxySDK

namespace WebhookAuth

open ProxySDK

/-- Shallow embedding of `verifySignature` from `src/webhook_auth.ts`:
replay check (`parseInt` of the timestamp, `Math.abs(now - eventTime) > toleranceSeconds`),
payload `Buffer.concat([Buffer.from(timestamp + "."), bodyBuffer])`, HMAC-SHA256 hex
digest, hex decoding of both signatures, length guard, then `timingSafeEqual`.
`now` stands for `Math.floor(Date.now() / 1000)`. -/
def verifySignature (rawBody : Sum String (List Nat)) (signature timestamp secret : String)
    (toleranceSeconds : Int) (now : Int) : Except String Bool :=
  match parseIntJS timestamp with
  | none => .ok false
  | some eventTime =>
    if ((now - eventTime).natAbs : Int) > toleranceSeconds then .ok false
    else
      let payload := utf8Bytes (timestamp ++ ".") ++ bodyBuffer rawBody
      let computedSignature := hexEncode (hmacSha256 (utf8Bytes secret) payload)
      let signatureBuffer := hexDecode signature
      let computedBuffer := hexDecode computedSignature
      if signatureBuffer.length ≠ computedBuffer.length then .ok false
      else timingSafeEqual computedBuffer signatureBuffer

/-- Instrumented variant of `verifySignature` that additionally counts how many
HMAC computations (`createHmac`/`update`/`digest` pipelines) are executed; its
first component is exactly `verifySignature`. -/
def verifySignatureCounting (rawBody : Sum String (List Nat))
    (signature timestamp secret : String)
    (toleranceSeconds : Int) (now : Int) : Except String Bool × Nat :=
  match parseIntJS timestamp with
  | none => (.ok false, 0)
  | some eventTime =>
    if ((now - eventTime).natAbs : Int) > toleranceSeconds then (.ok false, 0)
    else
      let payload := utf8Bytes (timestamp ++ ".") ++ bodyBuffer rawBody
      let computedSignature := hexEncode (hmacSha256 (utf8Bytes secret) payload)
      let signatureBuffer := hexDecode signature
      let computedBuffer := hexDecode computedSignature
      if signatureBuffer.length ≠ computedBuffer.length then (.ok false, 1)
      else (timingSafeEqual computedBuffer signatureBuffer, 1)

end WebhookAuth

namespace SecurityTs

open ProxySDK

/-- Shallow embedding of `verifyProxySignature` from `src/security.ts`: throws on
a `NaN` timestamp, throws on a timestamp outside the fixed 300-second window,
then compares the hex-decoded claimed signature with the hex-decoded expected
digest of `timestamp + "." + rawBody` under a length guard and `timingSafeEqual`. -/
def verifyProxySignature (rawBody signature timestamp secret : String)
    (now : Int) : Except String Bool :=
  match parseIntJS timestamp with
  | none => .error "PX_SECURITY_ERR: Invalid or missing timestamp header."
  | some eventTime =>
    if ((now - eventTime).natAbs : Int) > 300 then
      .error "PX_SECURITY_ERR: Request timestamp outside 5m window. Potential replay attack."
    else
      let payload := timestamp ++ "." ++ rawBody
      let expectedSignature := hexEncode (hmacSha256 (utf8Bytes secret) (utf8Bytes payload))
      let signatureBuffer := hexDecode signature
      let expectedBuffer := hexDecode expectedSignature
      if signatureBuffer.length ≠ expectedBuffer.length then .ok false
      else timingSafeEqual signatureBuffer expectedBuffer

end SecurityTs

namespace IndexTs

open ProxySDK

/-- Shallow embedding of `verifyProxySignature` from `src/index.ts`: returns
`false` on a `NaN` or out-of-window timestamp, then compares
`Buffer.from(signature)` with `Buffer.from(digest)` — the UTF-8 bytes of the two
hex strings, not their decoded bytes — under a length guard and `timingSafeEqual`. -/
def verifyProxySignature (rawBody signature timestamp secret : String)
    (now : Int) : Except String Bool :=
  match parseIntJS timestamp with
  | none => .ok false
  | some eventTime =>
    if ((now - eventTime).natAbs : Int) > 300 then .ok false
    else
      let payload := timestamp ++ "." ++ rawBody
      let digest := hexEncode (hmacSha256 (utf8Bytes secret) (utf8Bytes payload))
      let signatureBuffer := utf8Bytes signature
      let digestBuffer := utf8Bytes digest
      if signatureBuffer.length ≠ digestBuffer.length then .ok false
      else timingSafeEqual signatureBuffer digestBuffer

end IndexTs

namespace ProxySDK

/-! ### Structural lemmas about the SHA-256 / HMAC / hex embedding -/

lemma sha256Round_length (st : List Nat) (wk : Nat × Nat) :
    (sha256Round st wk).length = st.length := by
  unfold sha256Round
  split <;> simp

lemma foldl_sha256Round_length (l : List (Nat × Nat)) (st : List Nat) :
    (l.foldl sha256Round st).length = st.length := by
  induction l generalizing st with
  | nil => rfl
  | cons p l ih => simp [List.foldl_cons, ih, sha256Round_length]

lemma sha256Block_length (h b : List Nat) :
    (sha256Block h b).length = h.length := by
  simp [sha256Block, List.length_zip, foldl_sha256Round_length]

lemma foldl_sha256Block_length (bs : List (List Nat)) (h : List Nat) :
    (bs.foldl sha256Block h).length = h.length := by
  induction bs generalizing h with
  | nil => rfl
  | cons b bs ih => simp [List.foldl_cons, ih, sha256Block_length]

lemma wordsToBytes_length (ws : List Nat) :
    (wordsToBytes ws).length = 4 * ws.length := by
  induction ws with
  | nil => rfl
  | cons w ws ih => simp [wordsToBytes] at ih ⊢; omega

lemma wordsToBytes_lt (ws : List Nat) : ∀ b ∈ wordsToBytes ws, b < 256 := by
  intro b hb
  simp only [wordsToBytes, List.mem_flatten, List.mem_map] at hb
  obtain ⟨l, ⟨w, _, rfl⟩, hbl⟩ := hb
  simp only [List.mem_cons, List.not_mem_nil, or_false] at hbl
  rcases hbl with h | h | h | h <;> omega

/-- SHA-256 digests are 32 bytes long. -/
lemma sha256_length (msg : List Nat) : (sha256 msg).length = 32 := by
  simp [sha256, wordsToBytes_length, foldl_sha256Block_length, H256]

/-- Every byte of a SHA-256 digest is `< 256`. -/
lemma sha256_lt (msg : List Nat) : ∀ b ∈ sha256 msg, b < 256 :=
  fun b hb => wordsToBytes_lt _ b hb

/-- HMAC-SHA256 digests are 32 bytes long. -/
lemma hmacSha256_length (key msg : List Nat) : (hmacSha256 key msg).length = 32 :=
  sha256_length _

/-- Every byte of an HMAC-SHA256 digest is `< 256`. -/
lemma hmacSha256_lt (key msg : List Nat) : ∀ b ∈ hmacSha256 key msg, b < 256 :=
  sha256_lt _

lemma hexDigitVal_hexDigitChar (n : Nat) (h : n < 16) :
    hexDigitVal (hexDigitChar n) = some n := by
  interval_cases n <;> rfl

/-- Hex decoding inverts hex encoding on genuine byte lists. -/
lemma hexDecode_hexEncode (bs : List Nat) (h : ∀ b ∈ bs, b < 256) :
    hexDecode (hexEncode bs) = bs := by
  induction bs with
  | nil => rfl
  | cons b bs ih =>
      have hb : b < 256 := h b (List.mem_cons_self b bs)
      have hhi : b >>> 4 < 16 := by
        simp only [Nat.shiftRight_eq_div_pow]
        omega
      have hlo : b % 16 < 16 := Nat.mod_lt _ (by omega)
      have hrec : hexDecode (hexEncode bs) = bs :=
        ih (fun x hx => h x (List.mem_cons_of_mem _ hx))
      simp only [hexDecode, hexEncode, List.map_cons, List.flatten_cons] at hrec ⊢
      simp only [List.cons_append, List.nil_append, hexDecodeChars,
        hexDigitVal_hexDigitChar _ hhi, hexDigitVal_hexDigitChar _ hlo, hrec]
      congr 1
      simp only [Nat.shiftRight_eq_div_pow]
      omega

/-- UTF-8 encoding distributes over string append. -/
lemma utf8Bytes_append (a b : String) :
    utf8Bytes (a ++ b) = utf8Bytes a ++ utf8Bytes b := by
  simp [utf8Bytes, String.data_append]

end ProxySDK

namespace WebhookAuth

open ProxySDK

/-- On a well-parsed, in-window timestamp, `verifySignature` reduces to the pure
byte-level comparison of the hex-decoded claimed signature with the recomputed
HMAC digest. -/
lemma verifySignature_fresh (rawBody : Sum String (List Nat))
    (sig T secret : String) (tol now n : Int)
    (hp : parseIntJS T = some n) (hw : ((now - n).natAbs : Int) ≤ tol) :
    verifySignature rawBody sig T secret tol now =
      .ok (decide (hexDecode sig =
        hmacSha256 (utf8Bytes secret) (utf8Bytes (T ++ ".") ++ bodyBuffer rawBody))) := by
  simp only [verifySignature, hp]
  rw [if_neg (by omega)]
  rw [hexDecode_hexEncode _ (hmacSha256_lt _ _)]
  set digest := hmacSha256 (utf8Bytes secret) (utf8Bytes (T ++ ".") ++ bodyBuffer rawBody)
    with hd
  by_cases hlen : (hexDecode sig).length = digest.length
  · rw [if_neg (by simp [hlen])]
    unfold timingSafeEqual
    rw [if_pos hlen.symm]
    by_cases h : hexDecode sig = digest
    · rw [h]
      simp
    · rw [decide_eq_false h]
      have hne : digest ≠ hexDecode sig := fun hh => h hh.symm
      simp [hne]
  · rw [if_pos hlen]
    rw [decide_eq_false (fun h => hlen (by rw [h]))]

/-- On a `NaN` timestamp, `verifySignature` returns `false` before any crypto work. -/
lemma verifySignature_nan (rawBody : Sum String (List Nat))
    (sig T secret : String) (tol now : Int) (hp : parseIntJS T = none) :
    verifySignature rawBody sig T secret tol now = .ok false := by
  simp [verifySignature, hp]

/-- On an out-of-window timestamp, `verifySignature` returns `false` before any
crypto work. -/
lemma verifySignature_stale (rawBody : Sum String (List Nat))
    (sig T secret : String) (tol now n : Int)
    (hp : parseIntJS T = some n) (hw : ((now - n).natAbs : Int) > tol) :
    verifySignature rawBody sig T secret tol now = .ok false := by
  simp only [verifySignature, hp]
  rw [if_pos (by omega)]

/-- Acceptance inversion: `verifySignature` returns `true` exactly when the
timestamp parses, is in the tolerance window, and the hex-decoded claimed
signature equals the recomputed HMAC digest. -/
lemma verifySignature_accepts_iff (rawBody : Sum String (List Nat))
    (sig T secret : String) (tol now : Int) :
    verifySignature rawBody sig T secret tol now = .ok true ↔
      ∃ n, parseIntJS T = some n ∧ ((now - n).natAbs : Int) ≤ tol ∧
        hexDecode sig =
          hmacSha256 (utf8Bytes secret) (utf8Bytes (T ++ ".") ++ bodyBuffer rawBody) := by
  constructor
  · intro h
    cases hparse : parseIntJS T with
    | none =>
        rw [show verifySignature rawBody sig T secret tol now = .ok false by
          simp [verifySignature, hparse]] at h
        simp at h
    | some n =>
        by_cases hw : ((now - n).natAbs : Int) ≤ tol
        · rw [verifySignature_fresh rawBody sig T secret tol now n hparse hw] at h
          refine ⟨n, rfl, hw, ?_⟩
          simpa using h
        · rw [verifySignature_stale rawBody sig T secret tol now n hparse (by omega)] at h
          simp at h
  · rintro ⟨n, hp, hw, heq⟩
    rw [verifySignature_fresh rawBody sig T secret tol now n hp hw, heq]
    simp

/-- `verifySignature` is exception-free: every input produces an ordinary
boolean return value. -/
lemma verifySignature_isOk (rawBody : Sum String (List Nat))
    (sig T secret : String) (tol now : Int) :
    ∃ b, verifySignature rawBody sig T secret tol now = .ok b := by
  cases hparse : parseIntJS T with
  | none => exact ⟨false, by simp [verifySignature, hparse]⟩
  | some n =>
      by_cases hw : ((now - n).natAbs : Int) ≤ tol
      · exact ⟨_, verifySignature_fresh rawBody sig T secret tol now n hparse hw⟩
      · exact ⟨false, verifySignature_stale rawBody sig T secret tol now n hparse (by omega)⟩

end WebhookAuth

namespace SecurityTs

open ProxySDK

/-- On a well-parsed, in-window timestamp, `verifyProxySignature` reduces to the
pure byte-level comparison of the hex-decoded claimed signature with the
recomputed HMAC digest. -/
lemma verifyProxySignature_fresh (rawBody sig T secret : String) (now n : Int)
    (hp : parseIntJS T = some n) (hw : ((now - n).natAbs : Int) ≤ 300) :
    verifyProxySignature rawBody sig T secret now =
      .ok (decide (hexDecode sig =
        hmacSha256 (utf8Bytes secret) (utf8Bytes (T ++ "." ++ rawBody)))) := by
  simp only [verifyProxySignature, hp]
  rw [if_neg (by omega)]
  rw [hexDecode_hexEncode _ (hmacSha256_lt _ _)]
  set digest := hmacSha256 (utf8Bytes secret) (utf8Bytes (T ++ "." ++ rawBody)) with hd
  by_cases hlen : (hexDecode sig).length = digest.length
  · rw [if_neg (by simp [hlen])]
    unfold timingSafeEqual
    rw [if_pos hlen]
    by_cases h : hexDecode sig = digest
    · rw [h]
      simp
    · rw [decide_eq_false h]
      simp [h]
  · rw [if_pos hlen]
    rw [decide_eq_false (fun h => hlen (by rw [h]))]

/-- On a `NaN` timestamp, `verifyProxySignature` throws the invalid-timestamp error. -/
lemma verifyProxySignature_nan (rawBody sig T secret : String) (now : Int)
    (hp : parseIntJS T = none) :
    verifyProxySignature rawBody sig T secret now =
      .error "PX_SECURITY_ERR: Invalid or missing timestamp header." := by
  simp [verifyProxySignature, hp]

/-- On a numeric but out-of-window timestamp, `verifyProxySignature` throws the
replay-attack error. -/
lemma verifyProxySignature_stale (rawBody sig T secret : String) (now n : Int)
    (hp : parseIntJS T = some n) (hw : ((now - n).natAbs : Int) > 300) :
    verifyProxySignature rawBody sig T secret now =
      .error "PX_SECURITY_ERR: Request timestamp outside 5m window. Potential replay attack." := by
  simp only [verifyProxySignature, hp]
  rw [if_pos (by omega)]

/-- With a well-parsed, in-window timestamp, `verifyProxySignature` does not
throw: it returns an ordinary boolean. -/
lemma verifyProxySignature_isOk (rawBody sig T secret : String) (now n : Int)
    (hp : parseIntJS T = some n) (hw : ((now - n).natAbs : Int) ≤ 300) :
    ∃ b, verifyProxySignature rawBody sig T secret now = .ok b :=
  ⟨_, verifyProxySignature_fresh rawBody sig T secret now n hp hw⟩

end SecurityTs

namespace IndexTs

open ProxySDK

/-- On a well-parsed, in-window timestamp, `verifyProxySignature` reduces to the
comparison of the UTF-8 bytes of the claimed signature string with the UTF-8
bytes of the lowercase hex digest string. -/
lemma verifyProxySignature_fresh_utf8 (rawBody sig T secret : String) (now n : Int)
    (hp : parseIntJS T = some n) (hw : ((now - n).natAbs : Int) ≤ 300) :
    verifyProxySignature rawBody sig T secret now =
      .ok (decide (utf8Bytes sig =
        utf8Bytes (hexEncode (hmacSha256 (utf8Bytes secret) (utf8Bytes (T ++ "." ++ rawBody)))))) := by
  simp only [verifyProxySignature, hp]
  rw [if_neg (by omega)]
  set ds := utf8Bytes (hexEncode (hmacSha256 (utf8Bytes secret) (utf8Bytes (T ++ "." ++ rawBody))))
    with hd
  by_cases hlen : (utf8Bytes sig).length = ds.length
  · rw [if_neg (by simp [hlen])]
    unfold timingSafeEqual
    rw [if_pos hlen]
    by_cases h : utf8Bytes sig = ds
    · rw [h]
      simp
    · rw [decide_eq_false h]
      simp [h]
  · rw [if_pos hlen]
    rw [decide_eq_false (fun h => hlen (by rw [h]))]

/-- `index.ts`'s verifier accepts only when the UTF-8 bytes of the claimed
signature string coincide with the UTF-8 bytes of the lowercase hex digest
string. -/
lemma verifyProxySignature_accepts (rawBody sig T secret : String) (now : Int)
    (h : verifyProxySignature rawBody sig T secret now = .ok true) :
    utf8Bytes sig =
      utf8Bytes (hexEncode (hmacSha256 (utf8Bytes secret) (utf8Bytes (T ++ "." ++ rawBody)))) := by
  cases hparse : parseIntJS T with
  | none => simp [verifyProxySignature, hparse] at h
  | some n =>
      by_cases hw : ((now - n).natAbs : Int) ≤ 300
      · rw [verifyProxySignature_fresh_utf8 rawBody sig T secret now n hparse hw] at h
        simpa using h
      · simp only [verifyProxySignature, hparse] at h
        rw [if_pos (by omega)] at h
        simp at h

end IndexTs

namespace WebhookAuth

open ProxySDK

/-- The instrumented verifier computes exactly the same result as `verifySignature`. -/
lemma verifySignatureCounting_fst (rawBody : Sum String (List Nat))
    (sig T secret : String) (tol now : Int) :
    (verifySignatureCounting rawBody sig T secret tol now).1 =
      verifySignature rawBody sig T secret tol now := by
  cases hparse : parseIntJS T with
  | none => simp [verifySignatureCounting, verifySignature, hparse]
  | some n =>
      simp only [verifySignatureCounting, verifySignature, hparse]
      by_cases hw : ((now - n).natAbs : Int) > tol
      · rw [if_pos hw, if_pos hw]
      · rw [if_neg hw, if_neg hw]
        by_cases hlen : (hexDecode sig).length ≠
            (hexDecode (hexEncode (hmacSha256 (utf8Bytes secret)
              (utf8Bytes (T ++ ".") ++ bodyBuffer rawBody)))).length
        · rw [if_pos hlen, if_pos hlen]
        · rw [if_neg hlen, if_neg hlen]

/-- On an out-of-window timestamp, no HMAC is computed. -/
lemma verifySignatureCounting_stale (rawBody : Sum String (List Nat))
    (sig T secret : String) (tol now n : Int)
    (hp : parseIntJS T = some n) (hw : ((now - n).natAbs : Int) > tol) :
    (verifySignatureCounting rawBody sig T secret tol now).2 = 0 := by
  simp only [verifySignatureCounting, hp]
  rw [if_pos (by omega)]

end WebhookAuth

namespace WebhookAuth

open ProxySDK

/-- A correctly computed lowercase-hex HMAC signature over `"{T}.{B}"` is
accepted whenever the timestamp parses into the tolerance window. -/
lemma verifySignature_roundTrip (S B T : String) (tol now n : Int)
    (hp : parseIntJS T = some n) (hw : ((now - n).natAbs : Int) ≤ tol) :
    verifySignature (.inl B)
      (hexEncode (hmacSha256 (utf8Bytes S) (utf8Bytes (T ++ "." ++ B)))) T S tol now =
      .ok true := by
  have hpay : utf8Bytes (T ++ "." ++ B) = utf8Bytes (T ++ ".") ++ utf8Bytes B :=
    utf8Bytes_append (T ++ ".") B
  rw [verifySignature_fresh _ _ _ _ _ _ _ hp hw]
  rw [show bodyBuffer (Sum.inl B : Sum String (List Nat)) = utf8Bytes B from rfl]
  rw [← hpay]
  rw [hexDecode_hexEncode _ (hmacSha256_lt _ _)]
  simp

end WebhookAuth

namespace IndexTs

open ProxySDK

/-- A correctly computed lowercase-hex HMAC signature over `"{T}.{B}"` is
accepted by the `index.ts` verifier whenever the timestamp parses into the
300-second window. -/
lemma verifyProxySignature_roundTrip (S B T : String) (now n : Int)
    (hp : parseIntJS T = some n) (hw : ((now - n).natAbs : Int) ≤ 300) :
    verifyProxySignature B
      (hexEncode (hmacSha256 (utf8Bytes S) (utf8Bytes (T ++ "." ++ B)))) T S now =
      .ok true := by
  rw [verifyProxySignature_fresh_utf8 _ _ _ _ _ _ hp hw]
  simp

end IndexTs

namespace ProxySDK

/-- ASCII characters UTF-8 encode as their single code-point byte. -/
lemma utf8EncodeChar_ascii (c : Char) (h : c.toNat < 128) :
    utf8EncodeChar c = [c.toNat] := by
  simp [utf8EncodeChar, h]

/-- A list of ASCII characters UTF-8 encodes to one byte per character. -/
lemma utf8_ascii_length (l : List Char) (h : ∀ c ∈ l, c.toNat < 128) :
    ((l.map utf8EncodeChar).flatten).length = l.length := by
  induction l with
  | nil => rfl
  | cons c l ih =>
      have hc : c.toNat < 128 := h c (List.mem_cons_self c l)
      simp [utf8EncodeChar_ascii c hc,
        ih (fun x hx => h x (List.mem_cons_of_mem _ hx))]

lemma hexDigitChar_ascii (n : Nat) (h : n < 16) : (hexDigitChar n).toNat < 128 := by
  interval_cases n <;> decide

/-- Every character of a hex encoding of genuine bytes is ASCII. -/
lemma hexEncode_chars_ascii (bs : List Nat) (h : ∀ b ∈ bs, b < 256) :
    ∀ c ∈ (hexEncode bs).data, c.toNat < 128 := by
  intro c hc
  simp only [hexEncode, List.mem_flatten, List.mem_map] at hc
  obtain ⟨l, ⟨b, hb, rfl⟩, hcl⟩ := hc
  have hblt : b < 256 := h b hb
  have hhi : b >>> 4 < 16 := by
    simp only [Nat.shiftRight_eq_div_pow]
    omega
  have hlo : b % 16 < 16 := Nat.mod_lt _ (by omega)
  simp only [List.mem_cons, List.not_mem_nil, or_false] at hcl
  rcases hcl with rfl | rfl
  · exact hexDigitChar_ascii _ hhi
  · exact hexDigitChar_ascii _ hlo

/-- A hex encoding has two characters per byte. -/
lemma hexEncode_data_length (bs : List Nat) :
    (hexEncode bs).data.length = 2 * bs.length := by
  induction bs with
  | nil => rfl
  | cons b bs ih =>
      simp only [hexEncode] at ih ⊢
      simp only [List.map_cons, List.flatten_cons, List.length_append,
        List.length_cons, List.length_nil, List.length_map] at ih ⊢
      omega

/-- The UTF-8 bytes of a hex encoding of genuine bytes number two per byte. -/
lemma utf8Bytes_hexEncode_length (bs : List Nat) (h : ∀ b ∈ bs, b < 256) :
    (utf8Bytes (hexEncode bs)).length = 2 * bs.length :=
  calc (utf8Bytes (hexEncode bs)).length
      = (((hexEncode bs).data.map utf8EncodeChar).flatten).length := rfl
    _ = (hexEncode bs).data.length :=
        utf8_ascii_length (hexEncode bs).data (hexEncode_chars_ascii bs h)
    _ = 2 * bs.length := hexEncode_data_length bs

set_option maxRecDepth 100000 in
/-- FIPS 180-4 test vector: the SHA-256 digest of `"abc"`. -/
lemma sha256_abc_vector :
    hexEncode (sha256 (utf8Bytes "abc")) =
      "ba7816bf8f01cfea414140de5dae2223b00361a396177a9cb410ff61f20015ad" := rfl

set_option maxRecDepth 100000 in
/-- RFC 4231 test case 2: HMAC-SHA256 with key `"Jefe"`. -/
lemma hmacSha256_rfc4231_vector :
    hexEncode (hmacSha256 (utf8Bytes "Jefe") (utf8Bytes "what do ya want for nothing?")) =
      "5bdcc146bf60754e6a042426089575c75a003f089d2739839dec58b964ec3843" := rfl

end ProxySDK

namespace IndexTs

open ProxySDK

/-- On a `NaN` timestamp, `index.ts`'s verifier returns `false` before any
crypto work. -/
lemma verifyProxySignature_nan_idx (rawBody sig T secret : String) (now : Int)
    (hp : parseIntJS T = none) :
    verifyProxySignature rawBody sig T secret now = .ok false := by
  simp [verifyProxySignature, hp]

/-- On an out-of-window timestamp, `index.ts`'s verifier returns `false`
before any crypto work. -/
lemma verifyProxySignature_stale_idx (rawBody sig T secret : String) (now n : Int)
    (hp : parseIntJS T = some n) (hw : ((now - n).natAbs : Int) > 300) :
    verifyProxySignature rawBody sig T secret now = .ok false := by
  simp only [verifyProxySignature, hp]
  rw [if_pos (by omega)]

/-- `index.ts`'s verifier is exception-free: every input produces an ordinary
boolean return value. -/
lemma verifyProxySignature_isOk_idx (rawBody sig T secret : String) (now : Int) :
    ∃ b, verifyProxySignature rawBody sig T secret now = .ok b := by
  cases hparse : parseIntJS T with
  | none => exact ⟨false, verifyProxySignature_nan_idx rawBody sig T secret now hparse⟩
  | some n =>
      by_cases hw : ((now - n).natAbs : Int) ≤ 300
      · exact ⟨_, verifyProxySignature_fresh_utf8 rawBody sig T secret now n hparse hw⟩
      · exact ⟨false,
          verifyProxySignature_stale_idx rawBody sig T secret now n hparse (by omega)⟩

/-- A claimed signature whose UTF-8 byte length differs from the 64 bytes of
the digest's hex string is rejected by `index.ts`'s verifier with an ordinary
`false`. -/
lemma verifyProxySignature_lengthMismatch_idx (rawBody sig T secret : String) (now : Int)
    (hlen : (utf8Bytes sig).length ≠ 64) :
    verifyProxySignature rawBody sig T secret now = .ok false := by
  cases hparse : parseIntJS T with
  | none => exact verifyProxySignature_nan_idx rawBody sig T secret now hparse
  | some n =>
      by_cases hw : ((now - n).natAbs : Int) ≤ 300
      · rw [verifyProxySignature_fresh_utf8 rawBody sig T secret now n hparse hw]
        have hdl : (utf8Bytes (hexEncode (hmacSha256 (utf8Bytes secret)
            (utf8Bytes (T ++ "." ++ rawBody))))).length = 64 := by
          rw [utf8Bytes_hexEncode_length _ (hmacSha256_lt _ _), hmacSha256_length]
        rw [decide_eq_false (fun h => hlen (by rw [h, hdl]))]
      · exact verifyProxySignature_stale_idx rawBody sig T secret now n hparse (by omega)

end IndexTs

open ProxySDK

/-- C1: Round-trip acceptance — for every secret `S`, body `B`, and timestamp
string `T` whose parsed integer value lies within the default 300-second
tolerance window of the current time, presenting the lowercase-hex
HMAC-SHA256 digest of `"{T}.{B}"` keyed by `S` as the claimed signature makes
the verification entry points (`webhook_auth.ts` `verifySignature` and
`index.ts` `verifyProxySignature`) return `Accepted` (`true`). -/
theorem c1_round_trip_accepted (S B T : String) (now n : Int)
    (hp : parseIntJS T = some n) (hw : ((now - n).natAbs : Int) ≤ 300) :
    WebhookAuth.verifySignature (.inl B)
      (hexEncode (hmacSha256 (utf8Bytes S) (utf8Bytes (T ++ "." ++ B)))) T S 300 now =
      .ok true ∧
    IndexTs.verifyProxySignature B
      (hexEncode (hmacSha256 (utf8Bytes S) (utf8Bytes (T ++ "." ++ B)))) T S now =
      .ok true :=
  ⟨WebhookAuth.verifySignature_roundTrip S B T 300 now n hp hw,
   IndexTs.verifyProxySignature_roundTrip S B T now n hp hw⟩

/-- C1 witness: concrete instantiation at secret `whsec_test`, body
`task.completed`, timestamp `100`, now `100`. -/
theorem c1_round_trip_accepted_witness :
    WebhookAuth.verifySignature (.inl "task.completed")
      (hexEncode (hmacSha256 (utf8Bytes "whsec_test")
        (utf8Bytes ("100" ++ "." ++ "task.completed")))) "100" "whsec_test" 300 100 =
      .ok true ∧
    IndexTs.verifyProxySignature "task.completed"
      (hexEncode (hmacSha256 (utf8Bytes "whsec_test")
        (utf8Bytes ("100" ++ "." ++ "task.completed")))) "100" "whsec_test" 100 =
      .ok true :=
  c1_round_trip_accepted "whsec_test" "task.completed" "100" 100 100 (by decide) (by decide)

/-- C2 counterexample: the `security.ts` verification entry point throws
(`Except.error`) on a non-numeric timestamp instead of returning an ordinary
rejection value, refuting the claim that no verification entry point ever
throws on untrusted input. -/
theorem c2_counterexample :
    SecurityTs.verifyProxySignature "body" "sig" "not-a-number" "whsec" 0 =
      .error "PX_SECURITY_ERR: Invalid or missing timestamp header." := rfl

/-- C2 (amended): `webhook_auth.ts`'s `verifySignature` never throws — every
input, including malformed timestamps, resolves to an ordinary boolean; the
`security.ts` variant throws typed errors precisely on a malformed timestamp
and on an out-of-window timestamp, and never throws once the timestamp parses
into the window. -/
theorem c2_no_throw_amended :
    (∀ (rawBody : Sum String (List Nat)) (sig T S : String) (tol now : Int),
       ∃ b, WebhookAuth.verifySignature rawBody sig T S tol now = .ok b) ∧
    (∀ (rawBody sig T S : String) (now n : Int), parseIntJS T = some n →
       ((now - n).natAbs : Int) ≤ 300 →
       ∃ b, SecurityTs.verifyProxySignature rawBody sig T S now = .ok b) ∧
    (∀ (rawBody sig T S : String) (now : Int), parseIntJS T = none →
       SecurityTs.verifyProxySignature rawBody sig T S now =
         .error "PX_SECURITY_ERR: Invalid or missing timestamp header.") ∧
    (∀ (rawBody sig T S : String) (now n : Int), parseIntJS T = some n →
       ((now - n).natAbs : Int) > 300 →
       SecurityTs.verifyProxySignature rawBody sig T S now =
         .error "PX_SECURITY_ERR: Request timestamp outside 5m window. Potential replay attack.") :=
  ⟨fun rb sig T S tol now => WebhookAuth.verifySignature_isOk rb sig T S tol now,
   fun rb sig T S now n hp hw => SecurityTs.verifyProxySignature_isOk rb sig T S now n hp hw,
   fun rb sig T S now hp => SecurityTs.verifyProxySignature_nan rb sig T S now hp,
   fun rb sig T S now n hp hw => SecurityTs.verifyProxySignature_stale rb sig T S now n hp hw⟩

/-- C2 witness: concrete instantiations of each conjunct of the amended claim. -/
theorem c2_no_throw_amended_witness :
    (∃ b, WebhookAuth.verifySignature (.inl "a") "s" "t" "k" 300 5 = .ok b) ∧
    (∃ b, SecurityTs.verifyProxySignature "a" "s" "7" "k" 7 = .ok b) ∧
    SecurityTs.verifyProxySignature "a" "s" "zz" "k" 7 =
      .error "PX_SECURITY_ERR: Invalid or missing timestamp header." ∧
    SecurityTs.verifyProxySignature "a" "s" "7" "k" 5000 =
      .error "PX_SECURITY_ERR: Request timestamp outside 5m window. Potential replay attack." :=
  ⟨c2_no_throw_amended.1 (.inl "a") "s" "t" "k" 300 5,
   c2_no_throw_amended.2.1 "a" "s" "7" "k" 7 7 (by decide) (by decide),
   c2_no_throw_amended.2.2.1 "a" "s" "zz" "k" 7 (by decide),
   c2_no_throw_amended.2.2.2 "a" "s" "7" "k" 5000 7 (by decide) (by decide)⟩

/-- C3 (amended): `webhook_auth.ts`'s and `security.ts`'s verifiers depend on
the claimed signature only through its hex decoding, so any two hex encodings
of the same digest bytes are treated identically; `index.ts`'s
`verifyProxySignature` instead compares the UTF-8 bytes of the hex text
directly, accepting only the exact lowercase hex string produced by
`digest('hex')`. -/
theorem c3_comparison_amended :
    (∀ (rawBody : Sum String (List Nat)) (T S sig sig' : String) (tol now : Int),
       hexDecode sig = hexDecode sig' →
       WebhookAuth.verifySignature rawBody sig T S tol now =
         WebhookAuth.verifySignature rawBody sig' T S tol now) ∧
    (∀ (rawBody T S sig sig' : String) (now : Int),
       hexDecode sig = hexDecode sig' →
       SecurityTs.verifyProxySignature rawBody sig T S now =
         SecurityTs.verifyProxySignature rawBody sig' T S now) ∧
    (∀ (rawBody sig T S : String) (now : Int),
       IndexTs.verifyProxySignature rawBody sig T S now = .ok true →
       utf8Bytes sig =
         utf8Bytes (hexEncode (hmacSha256 (utf8Bytes S)
           (utf8Bytes (T ++ "." ++ rawBody))))) := by
  refine ⟨?_, ?_, ?_⟩
  · intro rb T S sig sig' tol now h
    cases hparse : parseIntJS T with
    | none =>
        rw [WebhookAuth.verifySignature_nan rb sig T S tol now hparse,
          WebhookAuth.verifySignature_nan rb sig' T S tol now hparse]
    | some n =>
        by_cases hw : ((now - n).natAbs : Int) ≤ tol
        · rw [WebhookAuth.verifySignature_fresh rb sig T S tol now n hparse hw,
            WebhookAuth.verifySignature_fresh rb sig' T S tol now n hparse hw, h]
        · rw [WebhookAuth.verifySignature_stale rb sig T S tol now n hparse (by omega),
            WebhookAuth.verifySignature_stale rb sig' T S tol now n hparse (by omega)]
  · intro rb T S sig sig' now h
    cases hparse : parseIntJS T with
    | none =>
        rw [SecurityTs.verifyProxySignature_nan rb sig T S now hparse,
          SecurityTs.verifyProxySignature_nan rb sig' T S now hparse]
    | some n =>
        by_cases hw : ((now - n).natAbs : Int) ≤ 300
        · rw [SecurityTs.verifyProxySignature_fresh rb sig T S now n hparse hw,
            SecurityTs.verifyProxySignature_fresh rb sig' T S now n hparse hw, h]
        · rw [SecurityTs.verifyProxySignature_stale rb sig T S now n hparse (by omega),
            SecurityTs.verifyProxySignature_stale rb sig' T S now n hparse (by omega)]
  · exact fun rb sig T S now h => IndexTs.verifyProxySignature_accepts rb sig T S now h

/-- C4: Boundary inclusivity and symmetry of the freshness gate — with
tolerance 300 and a fixed current time, a timestamp parsing to exactly 300
seconds in the past or future is accepted given a valid signature, while a
timestamp parsing to 301 seconds in either direction is rejected regardless of
signature and body. -/
theorem c4_boundary_inclusive (S B Tp Tf Tsp Tsf : String) (now : Int)
    (hp : parseIntJS Tp = some (now - 300)) (hf : parseIntJS Tf = some (now + 300))
    (hsp : parseIntJS Tsp = some (now - 301)) (hsf : parseIntJS Tsf = some (now + 301)) :
    WebhookAuth.verifySignature (.inl B)
      (hexEncode (hmacSha256 (utf8Bytes S) (utf8Bytes (Tp ++ "." ++ B)))) Tp S 300 now =
      .ok true ∧
    WebhookAuth.verifySignature (.inl B)
      (hexEncode (hmacSha256 (utf8Bytes S) (utf8Bytes (Tf ++ "." ++ B)))) Tf S 300 now =
      .ok true ∧
    (∀ (sig : String) (rawBody : Sum String (List Nat)),
       WebhookAuth.verifySignature rawBody sig Tsp S 300 now = .ok false) ∧
    (∀ (sig : String) (rawBody : Sum String (List Nat)),
       WebhookAuth.verifySignature rawBody sig Tsf S 300 now = .ok false) :=
  ⟨WebhookAuth.verifySignature_roundTrip S B Tp 300 now (now - 300) hp (by omega),
   WebhookAuth.verifySignature_roundTrip S B Tf 300 now (now + 300) hf (by omega),
   fun sig rb => WebhookAuth.verifySignature_stale rb sig Tsp S 300 now (now - 301) hsp (by omega),
   fun sig rb => WebhookAuth.verifySignature_stale rb sig Tsf S 300 now (now + 301) hsf (by omega)⟩

/-- C4 witness: concrete boundary instantiation at `now = 1000` with timestamps
`700`, `1300` (accepted) and `699`, `1301` (rejected). -/
theorem c4_boundary_inclusive_witness :
    WebhookAuth.verifySignature (.inl "B")
      (hexEncode (hmacSha256 (utf8Bytes "S") (utf8Bytes ("700" ++ "." ++ "B")))) "700" "S" 300 1000 =
      .ok true ∧
    WebhookAuth.verifySignature (.inl "B")
      (hexEncode (hmacSha256 (utf8Bytes "S") (utf8Bytes ("1300" ++ "." ++ "B")))) "1300" "S" 300 1000 =
      .ok true ∧
    WebhookAuth.verifySignature (.inl "x") "zz" "699" "S" 300 1000 = .ok false ∧
    WebhookAuth.verifySignature (.inl "x") "zz" "1301" "S" 300 1000 = .ok false := by
  have h := c4_boundary_inclusive "S" "B" "700" "1300" "699" "1301" 1000
    (by decide) (by decide) (by decide) (by decide)
  exact ⟨h.1, h.2.1, h.2.2.1 "zz" (.inl "x"), h.2.2.2 "zz" (.inl "x")⟩

/-- C5 (amended): the freshness gate accepts only timestamps on which
`parseInt(timestamp, 10)` succeeds — empty strings and strings without a
leading (optionally signed) decimal digit sequence are rejected regardless of
signature and body; however, digits followed by trailing non-digit characters
do parse (to the value of the leading digits) and can be accepted. -/
theorem c5_malformed_timestamp_amended :
    (∀ (rawBody : Sum String (List Nat)) (sig T S : String) (tol now : Int),
       WebhookAuth.verifySignature rawBody sig T S tol now = .ok true →
       ∃ n, parseIntJS T = some n) ∧
    (∀ (T : String), parseIntJS T = none →
       ∀ (rawBody : Sum String (List Nat)) (sig S : String) (tol now : Int),
         WebhookAuth.verifySignature rawBody sig T S tol now = .ok false) :=
  ⟨fun rb sig T S tol now h =>
     let ⟨n, hp, _, _⟩ := (WebhookAuth.verifySignature_accepts_iff rb sig T S tol now).mp h
     ⟨n, hp⟩,
   fun T hp rb sig S tol now => WebhookAuth.verifySignature_nan rb sig T S tol now hp⟩

/-- C6: Freshness gate runs first and short-circuits — on an out-of-window
timestamp, `webhook_auth.ts`'s verifier rejects with an output independent of
signature and body and performs zero HMAC computations (instrumented count),
and `security.ts`'s verifier produces the same thrown error for any signature
and body. -/
theorem c6_freshness_gate_first (T S : String) (tol now n : Int)
    (hp : parseIntJS T = some n) (hst : ((now - n).natAbs : Int) > tol) :
    (∀ (rawBody : Sum String (List Nat)) (sig : String),
       WebhookAuth.verifySignature rawBody sig T S tol now = .ok false ∧
       (WebhookAuth.verifySignatureCounting rawBody sig T S tol now).2 = 0) ∧
    (((now - n).natAbs : Int) > 300 →
       ∀ (rawBody rawBody' sig sig' : String),
         SecurityTs.verifyProxySignature rawBody sig T S now =
           SecurityTs.verifyProxySignature rawBody' sig' T S now) :=
  ⟨fun rb sig =>
     ⟨WebhookAuth.verifySignature_stale rb sig T S tol now n hp hst,
      WebhookAuth.verifySignatureCounting_stale rb sig T S tol now n hp hst⟩,
   fun h300 rb rb' sig sig' => by
     rw [SecurityTs.verifyProxySignature_stale rb sig T S now n hp h300,
       SecurityTs.verifyProxySignature_stale rb' sig' T S now n hp h300]⟩

/-- C6 witness: concrete stale timestamp `0` at `now = 1000`. -/
theorem c6_freshness_gate_first_witness :
    (WebhookAuth.verifySignature (.inl "x") "s" "0" "k" 300 1000 = .ok false ∧
     (WebhookAuth.verifySignatureCounting (.inl "x") "s" "0" "k" 300 1000).2 = 0) ∧
    SecurityTs.verifyProxySignature "x" "s" "0" "k" 1000 =
      SecurityTs.verifyProxySignature "y" "t" "0" "k" 1000 :=
  ⟨(c6_freshness_gate_first "0" "k" 300 1000 0 (by decide) (by decide)).1 (.inl "x") "s",
   (c6_freshness_gate_first "0" "k" 300 1000 0 (by decide) (by decide)).2 (by decide) "x" "y" "s" "t"⟩

/-- C7: Length-mismatch safety — in `webhook_auth.ts`, a claimed signature
whose hex decoding is not 32 bytes long (the HMAC-SHA256 digest length) is
rejected with an ordinary `false`; in `index.ts`, a claimed signature whose
UTF-8 encoding is not 64 bytes long (the digest's hex-string length) is
likewise rejected with an ordinary `false`; and neither verifier ever
propagates the constant-time primitive's length error (`timingSafeEqual`'s
equal-length precondition always holds when it is invoked). -/
theorem c7_length_mismatch_safe :
    (∀ (rawBody : Sum String (List Nat)) (sig T S : String) (tol now : Int),
       (hexDecode sig).length ≠ 32 →
       WebhookAuth.verifySignature rawBody sig T S tol now = .ok false) ∧
    (∀ (rawBody : Sum String (List Nat)) (sig T S : String) (tol now : Int),
       ∃ b, WebhookAuth.verifySignature rawBody sig T S tol now = .ok b) ∧
    (∀ (rawBody sig T S : String) (now : Int),
       (utf8Bytes sig).length ≠ 64 →
       IndexTs.verifyProxySignature rawBody sig T S now = .ok false) ∧
    (∀ (rawBody sig T S : String) (now : Int),
       ∃ b, IndexTs.verifyProxySignature rawBody sig T S now = .ok b) := by
  refine ⟨?_, ?_, ?_, ?_⟩
  · intro rb sig T S tol now hlen
    cases hparse : parseIntJS T with
    | none => exact WebhookAuth.verifySignature_nan rb sig T S tol now hparse
    | some n =>
        by_cases hw : ((now - n).natAbs : Int) ≤ tol
        · rw [WebhookAuth.verifySignature_fresh rb sig T S tol now n hparse hw]
          rw [decide_eq_false (fun h => hlen (by rw [h, hmacSha256_length]))]
        · exact WebhookAuth.verifySignature_stale rb sig T S tol now n hparse (by omega)
  · exact fun rb sig T S tol now => WebhookAuth.verifySignature_isOk rb sig T S tol now
  · exact fun rb sig T S now hlen =>
      IndexTs.verifyProxySignature_lengthMismatch_idx rb sig T S now hlen
  · exact fun rb sig T S now => IndexTs.verifyProxySignature_isOk_idx rb sig T S now

/-- C8 counterexample: for the boolean entry point `webhook_auth.ts`
`verifySignature`, a malformed timestamp and an out-of-window timestamp
produce identical observable results (`false = false`), so the two failure
modes are not distinguishable there, refuting the claim for that cited entry
point. -/
theorem c8_counterexample :
    parseIntJS "not-a-number" = none ∧
    parseIntJS "0" = some 0 ∧
    (((1000 : Int) - 0).natAbs : Int) > 300 ∧
    WebhookAuth.verifySignature (.inl "b") "s" "not-a-number" "k" 300 1000 = .ok false ∧
    WebhookAuth.verifySignature (.inl "b") "s" "0" "k" 300 1000 = .ok false ∧
    WebhookAuth.verifySignature (.inl "b") "s" "not-a-number" "k" 300 1000 =
      WebhookAuth.verifySignature (.inl "b") "s" "0" "k" 300 1000 :=
  ⟨by decide, by decide, by decide, rfl, rfl, rfl⟩

/-- C8 (amended): callers of `security.ts`'s `verifyProxySignature` can
distinguish a malformed timestamp from an out-of-window timestamp by its two
distinct error messages; the boolean entry points (`webhook_auth.ts`'s
`verifySignature` and `index.ts`'s `verifyProxySignature`) return an
indistinguishable `false` for both failure modes. -/
theorem c8_distinguishable_amended :
    (∀ (rawBody sig T S : String) (now : Int), parseIntJS T = none →
       SecurityTs.verifyProxySignature rawBody sig T S now =
         .error "PX_SECURITY_ERR: Invalid or missing timestamp header.") ∧
    (∀ (rawBody sig T S : String) (now n : Int), parseIntJS T = some n →
       ((now - n).natAbs : Int) > 300 →
       SecurityTs.verifyProxySignature rawBody sig T S now =
         .error "PX_SECURITY_ERR: Request timestamp outside 5m window. Potential replay attack.") ∧
    ("PX_SECURITY_ERR: Invalid or missing timestamp header." ≠
      "PX_SECURITY_ERR: Request timestamp outside 5m window. Potential replay attack.") ∧
    (∀ (rawBody : Sum String (List Nat)) (sig T S : String) (tol now : Int),
       parseIntJS T = none →
       WebhookAuth.verifySignature rawBody sig T S tol now = .ok false) ∧
    (∀ (rawBody : Sum String (List Nat)) (sig T S : String) (tol now n : Int),
       parseIntJS T = some n → ((now - n).natAbs : Int) > tol →
       WebhookAuth.verifySignature rawBody sig T S tol now = .ok false) ∧
    (∀ (rawBody sig T S : String) (now : Int), parseIntJS T = none →
       IndexTs.verifyProxySignature rawBody sig T S now = .ok false) ∧
    (∀ (rawBody sig T S : String) (now n : Int),
       parseIntJS T = some n → ((now - n).natAbs : Int) > 300 →
       IndexTs.verifyProxySignature rawBody sig T S now = .ok false) :=
  ⟨fun rb sig T S now hp => SecurityTs.verifyProxySignature_nan rb sig T S now hp,
   fun rb sig T S now n hp hw => SecurityTs.verifyProxySignature_stale rb sig T S now n hp hw,
   by decide,
   fun rb sig T S tol now hp => WebhookAuth.verifySignature_nan rb sig T S tol now hp,
   fun rb sig T S tol now n hp hw => WebhookAuth.verifySignature_stale rb sig T S tol now n hp hw,
   fun rb sig T S now hp => IndexTs.verifyProxySignature_nan_idx rb sig T S now hp,
   fun rb sig T S now n hp hw => IndexTs.verifyProxySignature_stale_idx rb sig T S now n hp hw⟩

/-- C8 witness: concrete instantiations of the amended claim's conjuncts. -/
theorem c8_distinguishable_amended_witness :
    SecurityTs.verifyProxySignature "b" "s" "nope" "k" 1000 =
      .error "PX_SECURITY_ERR: Invalid or missing timestamp header." ∧
    SecurityTs.verifyProxySignature "b" "s" "0" "k" 1000 =
      .error "PX_SECURITY_ERR: Request timestamp outside 5m window. Potential replay attack." ∧
    WebhookAuth.verifySignature (.inl "b") "s" "nope" "k" 300 1000 = .ok false ∧
    WebhookAuth.verifySignature (.inl "b") "s" "0" "k" 300 1000 = .ok false ∧
    IndexTs.verifyProxySignature "b" "s" "nope" "k" 1000 = .ok false ∧
    IndexTs.verifyProxySignature "b" "s" "0" "k" 1000 = .ok false :=
  ⟨c8_distinguishable_amended.1 "b" "s" "nope" "k" 1000 (by decide),
   c8_distinguishable_amended.2.1 "b" "s" "0" "k" 1000 0 (by decide) (by decide),
   c8_distinguishable_amended.2.2.2.1 (.inl "b") "s" "nope" "k" 300 1000 (by decide),
   c8_distinguishable_amended.2.2.2.2.1 (.inl "b") "s" "0" "k" 300 1000 0 (by decide) (by decide),
   c8_distinguishable_amended.2.2.2.2.2.1 "b" "s" "nope" "k" 1000 (by decide),
   c8_distinguishable_amended.2.2.2.2.2.2 "b" "s" "0" "k" 1000 0 (by decide) (by decide)⟩

/-- C9 (amended): from any accepted tuple, altering the claimed signature
yields rejection exactly when the altered string no longer hex-decodes to the
original digest bytes (a hex letter's case flip decodes identically and
remains accepted); altering the body or the timestamp yields rejection
provided the recomputed HMAC digest differs from the original — which a
single-byte flip guarantees only in the absence of an HMAC-SHA256 collision. -/
theorem c9_tamper_sensitivity_amended :
    (∀ (rawBody : Sum String (List Nat)) (sig sig' T S : String) (tol now : Int),
       WebhookAuth.verifySignature rawBody sig T S tol now = .ok true →
       hexDecode sig' ≠ hexDecode sig →
       WebhookAuth.verifySignature rawBody sig' T S tol now = .ok false) ∧
    (∀ (rawBody rawBody' : Sum String (List Nat)) (sig T S : String) (tol now : Int),
       WebhookAuth.verifySignature rawBody sig T S tol now = .ok true →
       hmacSha256 (utf8Bytes S) (utf8Bytes (T ++ ".") ++ bodyBuffer rawBody') ≠
         hmacSha256 (utf8Bytes S) (utf8Bytes (T ++ ".") ++ bodyBuffer rawBody) →
       WebhookAuth.verifySignature rawBody' sig T S tol now = .ok false) ∧
    (∀ (rawBody : Sum String (List Nat)) (sig T T' S : String) (tol now : Int),
       WebhookAuth.verifySignature rawBody sig T S tol now = .ok true →
       (∀ n', parseIntJS T' = some n' → ((now - n').natAbs : Int) ≤ tol →
          hmacSha256 (utf8Bytes S) (utf8Bytes (T' ++ ".") ++ bodyBuffer rawBody) ≠
            hmacSha256 (utf8Bytes S) (utf8Bytes (T ++ ".") ++ bodyBuffer rawBody)) →
       WebhookAuth.verifySignature rawBody sig T' S tol now = .ok false) := by
  refine ⟨?_, ?_, ?_⟩
  · intro rb sig sig' T S tol now hacc hne
    obtain ⟨n, hp, hw, heq⟩ := (WebhookAuth.verifySignature_accepts_iff rb sig T S tol now).mp hacc
    rw [WebhookAuth.verifySignature_fresh rb sig' T S tol now n hp hw]
    rw [decide_eq_false (fun h => hne (h.trans heq.symm))]
  · intro rb rb' sig T S tol now hacc hdiff
    obtain ⟨n, hp, hw, heq⟩ := (WebhookAuth.verifySignature_accepts_iff rb sig T S tol now).mp hacc
    rw [WebhookAuth.verifySignature_fresh rb' sig T S tol now n hp hw]
    rw [decide_eq_false (fun h => hdiff (h.symm.trans heq))]
  · intro rb sig T T' S tol now hacc ht
    obtain ⟨n, hp, hw, heq⟩ := (WebhookAuth.verifySignature_accepts_iff rb sig T S tol now).mp hacc
    cases hparse : parseIntJS T' with
    | none => exact WebhookAuth.verifySignature_nan rb sig T' S tol now hparse
    | some n' =>
        by_cases hw' : ((now - n').natAbs : Int) ≤ tol
        · rw [WebhookAuth.verifySignature_fresh rb sig T' S tol now n' hparse hw']
          rw [decide_eq_false (fun h => ht n' hparse hw' (h.symm.trans heq))]
        · exact WebhookAuth.verifySignature_stale rb sig T' S tol now n' hparse (by omega)

/-- C10: rawBody input-form equivalence — for every string `s` and all other
arguments fixed, `verifySignature` with the string body `s` returns the same
result as with the UTF-8 byte `Buffer` of `s`; the string branch and the
`Buffer` branch of the function are equivalent. -/
theorem c10_rawBody_equivalence (s sig T S : String) (tol now : Int) :
    WebhookAuth.verifySignature (.inl s) sig T S tol now =
      WebhookAuth.verifySignature (.inr (utf8Bytes s)) sig T S tol now := rfl

set_option maxRecDepth 100000 in
/-- C3 counterexample: an uppercase and a lowercase hex encoding of the same
digest bytes are treated differently by `index.ts`'s `verifyProxySignature`
(the lowercase one is accepted, the uppercase one rejected), because that
variant compares the UTF-8 bytes of the hex text rather than decoded bytes. -/
theorem c3_counterexample :
    hexDecode "E01F22B40DE4C728E4E56636DE967C5EA7CE6FA9AB049546801B765F7C2AC5D2" =
      hexDecode "e01f22b40de4c728e4e56636de967c5ea7ce6fa9ab049546801b765f7c2ac5d2" ∧
    IndexTs.verifyProxySignature "b"
      "e01f22b40de4c728e4e56636de967c5ea7ce6fa9ab049546801b765f7c2ac5d2" "0" "k" 0 =
      .ok true ∧
    IndexTs.verifyProxySignature "b"
      "E01F22B40DE4C728E4E56636DE967C5EA7CE6FA9AB049546801B765F7C2AC5D2" "0" "k" 0 =
      .ok false :=
  ⟨by decide, rfl, rfl⟩

set_option maxRecDepth 100000 in
/-- C3 witness: concrete instantiations of the amended claim's conjuncts. -/
theorem c3_comparison_amended_witness :
    WebhookAuth.verifySignature (.inl "b") "ab" "9" "k" 300 9 =
      WebhookAuth.verifySignature (.inl "b") "AB" "9" "k" 300 9 ∧
    SecurityTs.verifyProxySignature "b" "ab" "9" "k" 9 =
      SecurityTs.verifyProxySignature "b" "AB" "9" "k" 9 ∧
    utf8Bytes "e01f22b40de4c728e4e56636de967c5ea7ce6fa9ab049546801b765f7c2ac5d2" =
      utf8Bytes (hexEncode (hmacSha256 (utf8Bytes "k") (utf8Bytes ("0" ++ "." ++ "b")))) :=
  ⟨c3_comparison_amended.1 (.inl "b") "9" "k" "ab" "AB" 300 9 (by decide),
   c3_comparison_amended.2.1 "b" "9" "k" "ab" "AB" 9 (by decide),
   c3_comparison_amended.2.2 "b"
     "e01f22b40de4c728e4e56636de967c5ea7ce6fa9ab049546801b765f7c2ac5d2" "0" "k" 0 rfl⟩

set_option maxRecDepth 100000 in
/-- C5 counterexample: the timestamp `"0x"` consists of a digit followed by a
trailing non-digit character, yet `parseInt` yields `0` and, with a valid
signature over the raw string `"0x"`, the verifier accepts — refuting the
claim that digits-plus-trailing-garbage timestamps are always rejected. -/
theorem c5_counterexample :
    parseIntJS "0x" = some 0 ∧
    WebhookAuth.verifySignature (.inl "b")
      "fe3d7a122cdd313c66a796f6af44ccd748d81a8064db486382fa17ff5f8f4153" "0x" "k" 300 0 =
      .ok true :=
  ⟨by decide, rfl⟩

set_option maxRecDepth 100000 in
/-- C5 witness: concrete instantiations of the amended claim's conjuncts. -/
theorem c5_malformed_timestamp_amended_witness :
    (∃ n, parseIntJS "0x" = some n) ∧
    WebhookAuth.verifySignature (.inl "b") "zz" "" "k" 300 0 = .ok false :=
  ⟨c5_malformed_timestamp_amended.1 (.inl "b")
     "fe3d7a122cdd313c66a796f6af44ccd748d81a8064db486382fa17ff5f8f4153" "0x" "k" 300 0 rfl,
   c5_malformed_timestamp_amended.2 "" (by decide) (.inl "b") "zz" "k" 300 0⟩

/-- C7 witness: a 63-character claimed signature (one character shorter than
the 64-character digest encoding) is rejected with an ordinary `false` by both
boolean verifiers — in `webhook_auth.ts` it hex-decodes to 31 bytes, in
`index.ts` its UTF-8 encoding is 63 bytes. -/
theorem c7_length_mismatch_safe_witness :
    WebhookAuth.verifySignature (.inl "b")
      "6b4a4b8b3c40f1e8f53a3d36682e5f99f7ad2ac1df1c93dfe336f329167641e" "0" "k" 300 0 =
      .ok false ∧
    (∃ b, WebhookAuth.verifySignature (.inl "b") "zz" "0" "k" 300 0 = .ok b) ∧
    IndexTs.verifyProxySignature "b"
      "6b4a4b8b3c40f1e8f53a3d36682e5f99f7ad2ac1df1c93dfe336f329167641e" "0" "k" 0 =
      .ok false ∧
    (∃ b, IndexTs.verifyProxySignature "b" "zz" "0" "k" 0 = .ok b) :=
  ⟨c7_length_mismatch_safe.1 (.inl "b")
     "6b4a4b8b3c40f1e8f53a3d36682e5f99f7ad2ac1df1c93dfe336f329167641e" "0" "k" 300 0
     (by decide),
   c7_length_mismatch_safe.2.1 (.inl "b") "zz" "0" "k" 300 0,
   c7_length_mismatch_safe.2.2.1 "b"
     "6b4a4b8b3c40f1e8f53a3d36682e5f99f7ad2ac1df1c93dfe336f329167641e" "0" "k" 0
     (by decide),
   c7_length_mismatch_safe.2.2.2 "b" "zz" "0" "k" 0⟩

set_option maxRecDepth 100000 in
/-- C9 counterexample: an accepted input whose claimed signature, after
flipping the single byte `'b'` to `'B'` (a hex letter case flip), is still
accepted — the two signature strings differ in exactly one byte, refuting the
claim that every single-byte flip of the signature yields rejection. -/
theorem c9_counterexample :
    WebhookAuth.verifySignature (.inl "")
      "6b4a4b8b3c40f1e8f53a3d36682e5f99f7ad2ac1df1c93dfe336f329167641e7" "0" "k" 300 0 =
      .ok true ∧
    WebhookAuth.verifySignature (.inl "")
      "6B4a4b8b3c40f1e8f53a3d36682e5f99f7ad2ac1df1c93dfe336f329167641e7" "0" "k" 300 0 =
      .ok true ∧
    "6B4a4b8b3c40f1e8f53a3d36682e5f99f7ad2ac1df1c93dfe336f329167641e7" ≠
      "6b4a4b8b3c40f1e8f53a3d36682e5f99f7ad2ac1df1c93dfe336f329167641e7" ∧
    (utf8Bytes "6B4a4b8b3c40f1e8f53a3d36682e5f99f7ad2ac1df1c93dfe336f329167641e7").length =
      (utf8Bytes "6b4a4b8b3c40f1e8f53a3d36682e5f99f7ad2ac1df1c93dfe336f329167641e7").length ∧
    ((utf8Bytes "6B4a4b8b3c40f1e8f53a3d36682e5f99f7ad2ac1df1c93dfe336f329167641e7").zip
        (utf8Bytes "6b4a4b8b3c40f1e8f53a3d36682e5f99f7ad2ac1df1c93dfe336f329167641e7")).countP
      (fun p => p.1 != p.2) = 1 :=
  ⟨rfl, rfl, by decide, by decide, by decide⟩

set_option maxRecDepth 100000 in
/-- C9 witness: concrete instantiations of the amended claim's three
conjuncts — a decoded-bytes-changing signature edit, a digest-changing body
edit, and a digest-changing timestamp edit are each rejected. -/
theorem c9_tamper_sensitivity_amended_witness :
    WebhookAuth.verifySignature (.inl "") "zz" "0" "k" 300 0 = .ok false ∧
    WebhookAuth.verifySignature (.inl "c")
      "e01f22b40de4c728e4e56636de967c5ea7ce6fa9ab049546801b765f7c2ac5d2" "0" "k" 300 0 =
      .ok false ∧
    WebhookAuth.verifySignature (.inl "")
      "6b4a4b8b3c40f1e8f53a3d36682e5f99f7ad2ac1df1c93dfe336f329167641e7" "x" "k" 300 0 =
      .ok false :=
  ⟨c9_tamper_sensitivity_amended.1 (.inl "")
     "6b4a4b8b3c40f1e8f53a3d36682e5f99f7ad2ac1df1c93dfe336f329167641e7" "zz" "0" "k" 300 0
     rfl (by decide),
   c9_tamper_sensitivity_amended.2.1 (.inl "b") (.inl "c")
     "e01f22b40de4c728e4e56636de967c5ea7ce6fa9ab049546801b765f7c2ac5d2" "0" "k" 300 0
     rfl (by decide),
   c9_tamper_sensitivity_amended.2.2 (.inl "")
     "6b4a4b8b3c40f1e8f53a3d36682e5f99f7ad2ac1df1c93dfe336f329167641e7" "0" "x" "k" 300 0
     rfl (fun n' hpn _ => absurd hpn (by simp [show parseIntJS "x" = none from rfl]))⟩
